import Mathlib

/-!
Verification development for the AIMarketResearch repository.

Shallow embedding of `src/utils/persona.py` (the persona specification and
sampler) and of the parsing/looping logic of `src/predictor.py`
(the interview orchestrator), together with theorems settling the frozen
claims about them.

Modelling conventions:
* Python values that can appear in an attribute spec list are embedded as
  `PyVal` (int / float / str / nested list).  Python floats are modelled as
  exact rationals `ℚ`.
* `random.Random` is modelled as a deterministic generator with explicit
  `Nat` state.  A draw reads the current state and steps it with an LCG;
  this keeps the interface guarantees of the Python generator (randint
  lands in the inclusive range, choice picks a list element, random() is
  in [0,1)) while being a pure function of the seed, which is exactly the
  reproducibility contract the spec relies on.
* Python exceptions are embedded as `Except String`; a function that
  cannot raise returns `Except.ok` on every input.
-/

set_option autoImplicit false

namespace AIMarketResearch

/-- Embedded Python value: the payloads that can appear in a
`RangeOrOptions` list (`None` itself is the `Option.none` around the list). -/
inductive PyVal where
  | int (n : ℤ)
  | float (q : ℚ)
  | str (s : String)
  | plist (xs : List PyVal)

/-- Python `RangeOrOptions = Optional[Union[List[str], List[int], List[float]]]`. -/
abbrev RangeOrOptions := Option (List PyVal)

/-- Python `isinstance(x, (int, float))`. -/
def PyVal.isNumber : PyVal → Bool
  | .int _ => true
  | .float _ => true
  | _ => false

/-- Python `isinstance(x, int)`. -/
def PyVal.isIntVal : PyVal → Bool
  | .int _ => true
  | _ => false

/-- Numeric value of a `PyVal`, as Python `float(x)` on a number
(0 on non-numbers, unreachable in the guarded branches). -/
def PyVal.toRatNum : PyVal → ℚ
  | .int n => (n : ℚ)
  | .float q => q
  | _ => 0

/-- Python `int(x)` on an int (the only case reached under the
`all(isinstance(x, int))` guard of `_sample_from`). -/
def PyVal.toIntVal : PyVal → ℤ
  | .int n => n
  | _ => 0

/-- `_is_numeric_range(v)`: `isinstance(v, list) and len(v) == 2 and
all(isinstance(x, (int, float)) for x in v)`.  `None` is not a list. -/
def isNumericRange (v : RangeOrOptions) : Bool :=
  match v with
  | none => false
  | some xs => xs.length == 2 && xs.all PyVal.isNumber

/-- One LCG step of the modelled generator state. -/
def rngNext (s : ℕ) : ℕ := (25214903917 * s + 11) % 2 ^ 48

/-- `rng.randint(lo, hi)`: a value in the inclusive range `[lo, hi]`;
Python raises `ValueError` when `lo > hi` (empty range), without
consuming generator state. -/
def randint (lo hi : ℤ) (s : ℕ) : Except String ℤ × ℕ :=
  if lo ≤ hi then
    (Except.ok (lo + ((s % (hi - lo + 1).toNat : ℕ) : ℤ)), rngNext s)
  else
    (Except.error "ValueError: empty range for randrange()", s)

/-- `rng.random()`: a value in `[0, 1)`, modelled as a 53-bit draw
over `2 ^ 53` exactly as CPython produces it. -/
def randomUnit (s : ℕ) : ℚ × ℕ :=
  (((s % 2 ^ 53 : ℕ) : ℚ) / 2 ^ 53, rngNext s)

/-- `rng.uniform(a, b) = a + (b - a) * rng.random()`. -/
def uniform (a b : ℚ) (s : ℕ) : ℚ × ℕ :=
  let u := randomUnit s
  (a + (b - a) * u.1, u.2)

/-- `rng.choice(seq)`: `seq[i]` for a uniformly drawn index `i`;
on the empty list Python would raise, but `_sample_from` guards with
`len(spec) > 0`, so the `[]` case here is never reached from it. -/
def choiceList (xs : List PyVal) (s : ℕ) : Option PyVal × ℕ :=
  match xs with
  | [] => (none, s)
  | y :: ys =>
      (some ((y :: ys).get ⟨s % (ys.length + 1), Nat.mod_lt s (Nat.succ_pos ys.length)⟩),
        rngNext s)

/-- Python `round(x, 1)` on exact values: round to the nearest integer
multiple of 1/10, ties to the even multiple (banker's rounding). -/
def roundHalfEven (q : ℚ) : ℤ :=
  if q - (⌊q⌋ : ℚ) < 1 / 2 then ⌊q⌋
  else if 1 / 2 < q - (⌊q⌋ : ℚ) then ⌊q⌋ + 1
  else if ⌊q⌋ % 2 = 0 then ⌊q⌋ else ⌊q⌋ + 1

/-- `round(x, 1)`: one decimal place. -/
def round1 (q : ℚ) : ℚ := (roundHalfEven (10 * q) : ℚ) / 10

/-- The numeric-range branch of `_sample_from` for `lo, hi = spec`:
both bounds `int` → `rng.randint(int(lo), int(hi))`; otherwise
`round(rng.uniform(float(lo), float(hi)), 1)`. -/
def sampleRange (a b : PyVal) (s : ℕ) : Except String (Option PyVal) × ℕ :=
  if a.isIntVal && b.isIntVal then
    match randint a.toIntVal b.toIntVal s with
    | (Except.ok v, s2) => (Except.ok (some (PyVal.int v)), s2)
    | (Except.error e, s2) => (Except.error e, s2)
  else
    let r := uniform a.toRatNum b.toRatNum s
    (Except.ok (some (PyVal.float (round1 r.1))), r.2)

/-- `_sample_from(spec, rng)`: `None` → `None`; numeric range → ranged
draw; non-empty list → `rng.choice(spec)`; anything else (the empty
list) → `None`. -/
def sampleFrom (spec : RangeOrOptions) (s : ℕ) : Except String (Option PyVal) × ℕ :=
  match spec with
  | none => (Except.ok none, s)
  | some xs =>
      if isNumericRange (some xs) then
        match xs with
        | [a, b] => sampleRange a b s
        | _ => (Except.ok none, s)   -- unreachable: isNumericRange forces length 2
      else if 0 < xs.length then
        let c := choiceList xs s
        (Except.ok c.1, c.2)
      else
        (Except.ok none, s)

/-- Python `str()` on the non-negative one-decimal rationals the sampler
produces: integer part, a dot, one fractional digit. -/
def floatStrNN (q : ℚ) : String :=
  let m := (q * 10).num.toNat
  toString (m / 10) ++ "." ++ toString (m % 10)

/-- Python `str()` on a float.  Exact for the multiples of 1/10 that the
sampler feeds into templates (e.g. `3.5` prints as `"3.5"`, `3.0` as
`"3.0"`); other rationals are truncated to one decimal, a modelling
approximation no claim depends on. -/
def floatStr (q : ℚ) : String :=
  if q < 0 then "-" ++ floatStrNN (-q) else floatStrNN q

/-- Python `str()` of a scalar value (int, float or string). -/
def pyStrAtom : PyVal → String
  | PyVal.int n => toString n
  | PyVal.float q => floatStr q
  | PyVal.str t => t
  | PyVal.plist _ => "[...]"

/-- Python `str()` of a sampled value as it is substituted into a
template: scalars print directly, a list prints its elements
comma-joined (modelled to the one nesting depth the code can produce;
`_sample_from` never returns a list inside a list inside a list). -/
def pyStr : PyVal → String
  | PyVal.plist xs => String.intercalate ", " (xs.map pyStrAtom)
  | v => pyStrAtom v

/-- The value-to-text step of `add_sentence`: a list-valued sample of
length 0 produces no sentence, any other list is comma-joined, and a
scalar is used as is.  The `postprocess` lambdas of the source are the
identity on every value reaching them (the sample is already a string,
an int or a float at that point) and so are not modelled separately. -/
def renderSample : PyVal → Option String
  | PyVal.plist xs =>
      if xs.length = 0 then none
      else some (String.intercalate ", " (xs.map pyStr))
  | v => some (pyStr v)

/-- `Demographic` dataclass: every field defaults to `None`. -/
structure Demographic where
  age : RangeOrOptions := none
  gender : RangeOrOptions := none
  income_level : RangeOrOptions := none
  education_level : RangeOrOptions := none
  marital_status : RangeOrOptions := none
  household_size : RangeOrOptions := none
  children_count : RangeOrOptions := none
  occupation : RangeOrOptions := none

/-- `Geographic` dataclass. -/
structure Geographic where
  country : RangeOrOptions := none
  region : RangeOrOptions := none
  urbanicity : RangeOrOptions := none
  climate : RangeOrOptions := none

/-- `Psychographic` dataclass. -/
structure Psychographic where
  lifestyle : RangeOrOptions := none
  values : RangeOrOptions := none
  personality : RangeOrOptions := none
  interests : RangeOrOptions := none

/-- `Behavioral` dataclass. -/
structure Behavioral where
  purchase_frequency : RangeOrOptions := none
  brand_loyalty : RangeOrOptions := none
  purchase_channel : RangeOrOptions := none
  category_experience : RangeOrOptions := none

/-- `Technographic` dataclass. -/
structure Technographic where
  devices : RangeOrOptions := none
  social_media : RangeOrOptions := none
  tech_adoption : RangeOrOptions := none

/-- `PersonaSpec` dataclass: one instance of each category. -/
structure PersonaSpec where
  demographic : Demographic := {}
  geographic : Geographic := {}
  psychographic : Psychographic := {}
  behavioral : Behavioral := {}
  technographic : Technographic := {}

/-- One `add_sentence` call site: the attribute spec together with its
template from `_templates`, split around the single substitution slot
(every dotted path used by `generate_biography` is present in
`_templates`, so the lookup always succeeds and is inlined here). -/
abbrev BioEntry := RangeOrOptions × String × String

/-- The eight Demographic `add_sentence` calls, in source order. -/
def demographicEntries (d : Demographic) : List BioEntry :=
  [ (d.age, "You are ", " years old."),
    (d.gender, "You identify as ", "."),
    (d.income_level, "You have a ", " income level."),
    (d.education_level, "Your highest education level is ", "."),
    (d.marital_status, "You are ", "."),
    (d.household_size, "Your household consists of ", " people."),
    (d.children_count, "You have ", " children."),
    (d.occupation, "You work as a ", ".") ]

/-- The four Geographic `add_sentence` calls, in source order. -/
def geographicEntries (g : Geographic) : List BioEntry :=
  [ (g.country, "You live in ", "."),
    (g.region, "Your region is ", "."),
    (g.urbanicity, "You live in a(n) ", " area."),
    (g.climate, "Your local climate is ", ".") ]

/-- The four Psychographic `add_sentence` calls, in source order. -/
def psychographicEntries (p : Psychographic) : List BioEntry :=
  [ (p.lifestyle, "Your lifestyle is ", "."),
    (p.values, "You value ", "."),
    (p.personality, "Your personality is ", "."),
    (p.interests, "Your interests include ", ".") ]

/-- The four Behavioral `add_sentence` calls, in source order. -/
def behavioralEntries (b : Behavioral) : List BioEntry :=
  [ (b.purchase_frequency, "You are a ", " buyer in this category."),
    (b.brand_loyalty, "You are a ", " when it comes to brands."),
    (b.purchase_channel, "You typically buy via ", "."),
    (b.category_experience, "Your experience with this category is ", ".") ]

/-- The three Technographic `add_sentence` calls, in source order. -/
def technographicEntries (t : Technographic) : List BioEntry :=
  [ (t.devices, "You regularly use: ", "."),
    (t.social_media, "Your preferred social platforms include: ", "."),
    (t.tech_adoption, "You are a ", " of technology.") ]

/-- The full fixed sequence of `add_sentence` calls of
`generate_biography`: category order Demographic, Geographic,
Psychographic, Behavioral, Technographic, attribute-declaration order
within each category. -/
def bioEntries (p : PersonaSpec) : List BioEntry :=
  demographicEntries p.demographic ++ (geographicEntries p.geographic ++
    (psychographicEntries p.psychographic ++ (behavioralEntries p.behavioral ++
      technographicEntries p.technographic)))

/-- Running a sequence of `add_sentence` calls: the single generator is
threaded through the draws, every sample that yields a value appends its
rendered sentence to `parts`, absent samples contribute nothing, and a
raising sample aborts the whole call (the Python exception propagates). -/
def runEntries : List BioEntry → ℕ → Except String (List String × ℕ)
  | [], s => Except.ok ([], s)
  | (spec, pre, post) :: rest, s =>
      match sampleFrom spec s with
      | (Except.error e, _) => Except.error e
      | (Except.ok none, s2) => runEntries rest s2
      | (Except.ok (some v), s2) =>
          match renderSample v with
          | none => runEntries rest s2
          | some sv =>
              match runEntries rest s2 with
              | Except.error e => Except.error e
              | Except.ok (parts, s3) => Except.ok ((pre ++ sv ++ post) :: parts, s3)

/-- Initial generator state derived from an integer seed
(`random.Random(seed)`). -/
def seedState (seed : ℤ) : ℕ := (seed % 2 ^ 64).toNat

/-- `generate_biography` from an explicit initial generator state: run the
23 `add_sentence` calls and join the collected sentences with single
spaces.  Calling with `seed=None` corresponds to an arbitrary
entropy-derived initial state. -/
def generateBiographyFrom (p : PersonaSpec) (s0 : ℕ) : Except String String :=
  match runEntries (bioEntries p) s0 with
  | Except.error e => Except.error e
  | Except.ok (parts, _) => Except.ok (String.intercalate " " parts)

/-- `PersonaSpec.generate_biography(seed)` with an integer seed: one
random source is created from the seed and shared across all draws. -/
def generateBiography (p : PersonaSpec) (seed : ℤ) : Except String String :=
  generateBiographyFrom p (seedState seed)

/-- Specification-side reading of the biography contract, for comparison
with the code-side `generateBiography`: the sentences are produced per
category, in the fixed category order Demographic, Geographic,
Psychographic, Behavioral, Technographic, the per-category sentence lists
being concatenated in that order with the single generator threaded from
one category to the next. -/
def categoryRuns (p : PersonaSpec) (s : ℕ) : Except String (List String × ℕ) :=
  match runEntries (demographicEntries p.demographic) s with
  | Except.error e => Except.error e
  | Except.ok (l1, s1) =>
      match runEntries (geographicEntries p.geographic) s1 with
      | Except.error e => Except.error e
      | Except.ok (l2, s2) =>
          match runEntries (psychographicEntries p.psychographic) s2 with
          | Except.error e => Except.error e
          | Except.ok (l3, s3) =>
              match runEntries (behavioralEntries p.behavioral) s3 with
              | Except.error e => Except.error e
              | Except.ok (l4, s4) =>
                  match runEntries (technographicEntries p.technographic) s4 with
                  | Except.error e => Except.error e
                  | Except.ok (l5, s5) =>
                      Except.ok (l1 ++ (l2 ++ (l3 ++ (l4 ++ l5))), s5)

/-- One `{'biography': ..., 'responses': ...}` record appended per loop
iteration of `IntentPredictor.predict`. -/
structure InterviewRecord where
  biography : String
  responses : List String

/-- The persisted Market-Research result
`{'concept': ..., 'questions': ..., 'responses': ...}`. -/
structure MarketResearch where
  concept : String
  questions : List String
  responses : List InterviewRecord

/-- Python `str.split` on the fixed two-newline delimiter, scanning left
to right over the character list: a delimiter occurrence closes the
current segment, and the trailing segment is always emitted (so the empty
text splits into one empty segment, exactly as in Python). -/
def splitNN : List Char → List Char → List (List Char)
  | [], cur => [cur.reverse]
  | '\n' :: '\n' :: rest, cur => cur.reverse :: splitNN rest []
  | c :: rest, cur => splitNN rest (c :: cur)

/-- Splitting service output on the fixed delimiter: Python
`text.split` with the two-newline separator. -/
def splitSegments (text : String) : List String :=
  (splitNN text.data []).map (fun l => String.mk l)

/-- Observable outcome of the questionnaire-building step of
`IntentPredictor.predict`: the question segments the run goes on to use,
the diagnostic lines printed, and the number of `pdb.set_trace()`
interactive debugger breaks hit. -/
structure QBuildOut where
  questions : List String
  printed : List String
  debuggerBreaks : ℕ

/-- The questionnaire-split step of `IntentPredictor.predict`, given the
text the drafting service returned: `questions = questionnaire.split` on
the two-newline delimiter, and if that yields exactly one segment the
code prints a diagnostic and calls `pdb.set_trace()`; it never raises,
and after the interactive break it proceeds with the mis-split question
list unchanged. -/
def buildQuestionnaire (questionnaire : String) : Except String QBuildOut :=
  if (splitSegments questionnaire).length = 1 then
    Except.ok
      { questions := splitSegments questionnaire,
        printed := ["Questions incorrectly separated, check separation token"],
        debuggerBreaks := 1 }
  else
    Except.ok
      { questions := splitSegments questionnaire, printed := [], debuggerBreaks := 0 }

/-- Observable outcome of `IntentPredictor.perform_questionnaire`: the
answer segments handed back to the caller, the diagnostic lines printed,
and the number of `pdb.set_trace()` interactive debugger breaks hit. -/
structure PQOut where
  answers : List String
  printed : List String
  debuggerBreaks : ℕ

/-- `IntentPredictor.perform_questionnaire`, given the questionnaire text
and the text the answering service returned.  The source never raises: on
a single-segment split, or on an answer count different from the question
count, it prints a diagnostic and calls `pdb.set_trace()`, and after the
interactive break falls through to `return questionnaire_answers`, handing
the mis-split segments back unchanged. -/
def performQuestionnaire (questionnaire serviceReply : String) : Except String PQOut :=
  if (splitSegments serviceReply).length = 1 then
    Except.ok
      { answers := splitSegments serviceReply,
        printed := ["Answers incorrectly separated, check separation token"],
        debuggerBreaks := 1 }
  else if (splitSegments serviceReply).length ≠ (splitSegments questionnaire).length then
    Except.ok
      { answers := splitSegments serviceReply,
        printed := ["Different number of questions and answers: " ++
          toString (splitSegments serviceReply).length ++ " answers and " ++
          toString (splitSegments questionnaire).length ++ " questions"],
        debuggerBreaks := 1 }
  else
    Except.ok
      { answers := splitSegments serviceReply, printed := [], debuggerBreaks := 0 }

/-- The respondent loop of `IntentPredictor.predict`.  The external
biography sampler (seedless `generate_biography`, optionally rewritten by
the cleaning service) and the answering service are abstracted as
functions of the respondent index.  The source iterates
`for respondent_idx in tqdm(range(1))`; the `range(sample_size)` loop
exists only as a commented-out line above it. -/
def predictLoop (sample_size : ℕ) (bioOf : ℕ → String)
    (answersOf : ℕ → List String) : List InterviewRecord :=
  (List.range 1).map (fun i => { biography := bioOf i, responses := answersOf i })

/-- Assembly of the persisted result in `IntentPredictor.predict`:
concept, the split questionnaire, and the records appended by the
respondent loop, in submission order. -/
def predictResult (concept questionnaire : String) (sample_size : ℕ)
    (bioOf : ℕ → String) (answersOf : ℕ → List String) : MarketResearch :=
  { concept := concept,
    questions := splitSegments questionnaire,
    responses := predictLoop sample_size bioOf answersOf }

end AIMarketResearch

/-! ## Helper lemmas -/

namespace AIMarketResearch

/-- Running a concatenated sequence of `add_sentence` calls equals running
the first block and then the second from the generator state the first
block left behind, concatenating the collected sentences. -/
theorem runEntries_append_ok (l1 l2 : List BioEntry) (s s1 s2 : ℕ)
    (xs ys : List String)
    (h1 : runEntries l1 s = Except.ok (xs, s1))
    (h2 : runEntries l2 s1 = Except.ok (ys, s2)) :
    runEntries (l1 ++ l2) s = Except.ok (xs ++ ys, s2) := by
  induction l1 generalizing s xs with
  | nil =>
      simp only [runEntries, Except.ok.injEq, Prod.mk.injEq] at h1
      obtain ⟨hxs, hsv⟩ := h1
      subst hxs
      subst hsv
      simpa using h2
  | cons hd tl ih =>
      obtain ⟨spec, pre, post⟩ := hd
      simp only [List.cons_append, runEntries] at h1 ⊢
      rcases hsamp : sampleFrom spec s with ⟨res, sMid⟩
      rw [hsamp] at h1
      cases res with
      | error e => simp at h1
      | ok ov =>
          cases ov with
          | none =>
              dsimp only at h1 ⊢
              exact ih sMid xs h1
          | some v =>
              dsimp only at h1 ⊢
              cases hrd : renderSample v with
              | none =>
                  try rw [hrd] at h1
                  dsimp only at h1 ⊢
                  exact ih sMid xs h1
              | some sv =>
                  try rw [hrd] at h1
                  dsimp only at h1 ⊢
                  cases hrest : runEntries tl sMid with
                  | error e =>
                      try rw [hrest] at h1
                      simp at h1
                  | ok pr =>
                      obtain ⟨partsTl, sTl⟩ := pr
                      try rw [hrest] at h1
                      simp only [Except.ok.injEq, Prod.mk.injEq] at h1
                      obtain ⟨hxs, hsv⟩ := h1
                      subst hxs
                      subst hsv
                      simp only [List.append_eq]
                      rw [ih sMid partsTl hrest]
                      simp

end AIMarketResearch

/-! ## Claim theorems: biography generation -/

namespace AIMarketResearch

/-- C1: for every `PersonaSpec` and every fixed integer seed, two calls of
`generate_biography` with that spec and that seed return byte-identical
results; a single random source is created per call from the seed
(`seedState`) and threaded through all attribute draws of the call
(`generateBiographyFrom`). -/
theorem c1_generate_biography_deterministic (p : PersonaSpec) (seed : ℤ) :
    generateBiography p seed = generateBiography p seed ∧
    generateBiography p seed = generateBiographyFrom p (seedState seed) :=
  ⟨rfl, rfl⟩

/-- C2: the string returned by `generate_biography` is the space-joined
concatenation of one rendered sentence per attribute that yields a
sample, in fixed category order (Demographic, Geographic, Psychographic,
Behavioral, Technographic) and fixed attribute-declaration order within
each category (`categoryRuns`), attributes without a sample skipped
entirely; zero generated sentences yield the empty string, not an
error. -/
theorem c2_biography_ordered_join (p : PersonaSpec) (seed : ℤ) :
    (∀ parts sEnd, categoryRuns p (seedState seed) = Except.ok (parts, sEnd) →
        generateBiography p seed = Except.ok (String.intercalate " " parts)) ∧
    (∀ sEnd, categoryRuns p (seedState seed) = Except.ok ([], sEnd) →
        generateBiography p seed = Except.ok "") := by
  have main : ∀ parts sEnd,
      categoryRuns p (seedState seed) = Except.ok (parts, sEnd) →
      generateBiography p seed = Except.ok (String.intercalate " " parts) := by
    intro parts sEnd hcat
    unfold categoryRuns at hcat
    cases h1 : runEntries (demographicEntries p.demographic) (seedState seed) with
    | error e => rw [h1] at hcat; simp at hcat
    | ok p1 =>
        obtain ⟨l1, s1⟩ := p1
        rw [h1] at hcat
        dsimp only at hcat
        cases h2 : runEntries (geographicEntries p.geographic) s1 with
        | error e => rw [h2] at hcat; simp at hcat
        | ok p2 =>
            obtain ⟨l2, s2⟩ := p2
            rw [h2] at hcat
            dsimp only at hcat
            cases h3 : runEntries (psychographicEntries p.psychographic) s2 with
            | error e => rw [h3] at hcat; simp at hcat
            | ok p3 =>
                obtain ⟨l3, s3⟩ := p3
                rw [h3] at hcat
                dsimp only at hcat
                cases h4 : runEntries (behavioralEntries p.behavioral) s3 with
                | error e => rw [h4] at hcat; simp at hcat
                | ok p4 =>
                    obtain ⟨l4, s4⟩ := p4
                    rw [h4] at hcat
                    dsimp only at hcat
                    cases h5 : runEntries (technographicEntries p.technographic) s4 with
                    | error e => rw [h5] at hcat; simp at hcat
                    | ok p5 =>
                        obtain ⟨l5, s5⟩ := p5
                        rw [h5] at hcat
                        simp only [Except.ok.injEq, Prod.mk.injEq] at hcat
                        obtain ⟨hparts, hsEnd⟩ := hcat
                        subst hparts
                        have hAll : runEntries (bioEntries p) (seedState seed) =
                            Except.ok (l1 ++ (l2 ++ (l3 ++ (l4 ++ l5))), s5) := by
                          unfold bioEntries
                          exact runEntries_append_ok _ _ _ _ _ _ _ h1
                            (runEntries_append_ok _ _ _ _ _ _ _ h2
                              (runEntries_append_ok _ _ _ _ _ _ _ h3
                                (runEntries_append_ok _ _ _ _ _ _ _ h4 h5)))
                        show generateBiographyFrom p (seedState seed) = _
                        unfold generateBiographyFrom
                        rw [hAll]
  refine ⟨main, fun sEnd h => ?_⟩
  have hmain := main [] sEnd h
  rwa [show String.intercalate " " [] = "" from rfl] at hmain

/-- Witness for C2 at concrete inputs: a spec whose only present
attribute is a single-option gender yields exactly its one sentence, and
the all-absent spec yields the empty string. -/
theorem c2_biography_ordered_join_witness :
    generateBiography
        { demographic := { gender := some [PyVal.str "male"] } } 42 =
      Except.ok "You identify as male." ∧
    generateBiography ({} : PersonaSpec) 42 = Except.ok "" :=
  ⟨(c2_biography_ordered_join
      { demographic := { gender := some [PyVal.str "male"] } } 42).1
      ["You identify as male."] (rngNext (seedState 42)) rfl,
   (c2_biography_ordered_join ({} : PersonaSpec) 42).2 (seedState 42) rfl⟩

end AIMarketResearch

/-! ## Claim theorems: the attribute sampler -/

namespace AIMarketResearch

/-- C10: a one-element list is never interpreted as a numeric range (only
lists of exactly two numbers are ranges): sample treats it as a discrete
set and always returns its single element — in particular a singleton
numeric list such as `[18]` always yields that number — and never the
absent value. -/
theorem c10_singleton_list_is_choice (v : PyVal) (s : ℕ) :
    (sampleFrom (some [v]) s).1 = Except.ok (some v) := by
  simp [sampleFrom, isNumericRange, choiceList, Nat.mod_one]

/-- C6: a two-element list is a numeric range exactly when both elements
are numbers; a two-element list with any non-numeric entry is treated as
a discrete set (sample returns one of its two elements), so the
dispatch is decided by type-checking both elements, never by length
alone. -/
theorem c6_two_element_type_dispatch (a b : PyVal) (s : ℕ) :
    isNumericRange (some [a, b]) = (a.isNumber && b.isNumber) ∧
    ((a.isNumber && b.isNumber) = false →
      (sampleFrom (some [a, b]) s).1 = Except.ok (some a) ∨
      (sampleFrom (some [a, b]) s).1 = Except.ok (some b)) := by
  have hdisp : isNumericRange (some [a, b]) = (a.isNumber && b.isNumber) := by
    simp [isNumericRange]
  refine ⟨hdisp, fun h => ?_⟩
  have hfalse : isNumericRange (some [a, b]) = false := by rw [hdisp, h]
  rcases Nat.mod_two_eq_zero_or_one s with h2 | h2
  · left
    simp [sampleFrom, hfalse, choiceList, h2]
  · right
    simp [sampleFrom, hfalse, choiceList, h2]

/-- Witness for C6: a two-element list of strings (length two, yet not a
range) is sampled as a discrete set. -/
theorem c6_two_element_type_dispatch_witness :
    (sampleFrom (some [PyVal.str "x", PyVal.str "y"]) 0).1 =
        Except.ok (some (PyVal.str "x")) ∨
    (sampleFrom (some [PyVal.str "x", PyVal.str "y"]) 0).1 =
        Except.ok (some (PyVal.str "y")) :=
  (c6_two_element_type_dispatch (PyVal.str "x") (PyVal.str "y") 0).2 rfl

/-- C5: for every non-empty discrete-set spec (a list that is not a
numeric range) and every fixed generator state, sample returns a member
of the configured set, and a repeated call with the same state returns
the same element. -/
theorem c5_discrete_set_member (xs : List PyVal) (s : ℕ)
    (hne : xs ≠ []) (hnr : isNumericRange (some xs) = false) :
    ∃ v : PyVal,
      (sampleFrom (some xs) s).1 = Except.ok (some v) ∧ v ∈ xs ∧
      sampleFrom (some xs) s = sampleFrom (some xs) s := by
  cases xs with
  | nil => exact absurd rfl hne
  | cons y ys =>
      refine ⟨(y :: ys).get ⟨s % (ys.length + 1), Nat.mod_lt s (Nat.succ_pos ys.length)⟩,
        ?_, List.get_mem _ _ _, rfl⟩
      simp [sampleFrom, hnr, choiceList]

/-- Witness for C5 at a concrete two-string set and state 3. -/
theorem c5_discrete_set_member_witness :
    ∃ v : PyVal,
      (sampleFrom (some [PyVal.str "a", PyVal.str "b"]) 3).1 =
          Except.ok (some v) ∧
      v ∈ [PyVal.str "a", PyVal.str "b"] ∧
      sampleFrom (some [PyVal.str "a", PyVal.str "b"]) 3 =
        sampleFrom (some [PyVal.str "a", PyVal.str "b"]) 3 :=
  c5_discrete_set_member [PyVal.str "a", PyVal.str "b"] 3 (by simp) rfl

/-- C3: for an integer range `[lo, hi]` (`lo ≤ hi`, a pair (min, max))
and any generator state, sample returns an integer `v` with
`lo ≤ v ≤ hi`, bounds inclusive; moreover every integer of the inclusive
range is attained at some generator state (full support of the uniform
draw). -/
theorem c3_integer_range_inclusive (lo hi : ℤ) (s : ℕ) (h : lo ≤ hi) :
    ∃ v : ℤ,
      (sampleFrom (some [PyVal.int lo, PyVal.int hi]) s).1 =
          Except.ok (some (PyVal.int v)) ∧
      lo ≤ v ∧ v ≤ hi ∧
      ∀ w : ℤ, lo ≤ w → w ≤ hi →
        ∃ sw : ℕ, (sampleFrom (some [PyVal.int lo, PyVal.int hi]) sw).1 =
          Except.ok (some (PyVal.int w)) := by
  have hkey : ∀ t : ℕ, (sampleFrom (some [PyVal.int lo, PyVal.int hi]) t).1 =
      Except.ok (some (PyVal.int (lo + ((t % (hi - lo + 1).toNat : ℕ) : ℤ)))) := by
    intro t
    simp [sampleFrom, isNumericRange, sampleRange, PyVal.isIntVal, PyVal.toIntVal,
      PyVal.isNumber, randint, h]
  have hnpos : 0 < (hi - lo + 1).toNat := by omega
  have hmod : s % (hi - lo + 1).toNat < (hi - lo + 1).toNat := Nat.mod_lt s hnpos
  refine ⟨lo + ((s % (hi - lo + 1).toNat : ℕ) : ℤ), hkey s, by omega, by omega, ?_⟩
  intro w hw1 hw2
  refine ⟨(w - lo).toNat, ?_⟩
  rw [hkey ((w - lo).toNat)]
  have hlt : (w - lo).toNat < (hi - lo + 1).toNat := by omega
  have heq : lo + (((w - lo).toNat % (hi - lo + 1).toNat : ℕ) : ℤ) = w := by
    rw [Nat.mod_eq_of_lt hlt]
    omega
  rw [heq]

/-- Witness for C3 at the concrete range `[3, 7]` and state 5. -/
theorem c3_integer_range_inclusive_witness :
    (3 : ℤ) ≤ 7 ∧
    ∃ v : ℤ,
      (sampleFrom (some [PyVal.int 3, PyVal.int 7]) 5).1 =
          Except.ok (some (PyVal.int v)) ∧
      3 ≤ v ∧ v ≤ 7 ∧
      ∀ w : ℤ, 3 ≤ w → w ≤ 7 →
        ∃ sw : ℕ, (sampleFrom (some [PyVal.int 3, PyVal.int 7]) sw).1 =
          Except.ok (some (PyVal.int w)) :=
  ⟨by decide, c3_integer_range_inclusive 3 7 5 (by decide)⟩

end AIMarketResearch

/-! ## Claim theorems: real ranges and rounding (C4) -/

namespace AIMarketResearch

/-- Rounding half-to-even never moves a value up by more than 1/2. -/
theorem roundHalfEven_le (q : ℚ) : (roundHalfEven q : ℚ) ≤ q + 1 / 2 := by
  have h1 : (⌊q⌋ : ℚ) ≤ q := Int.floor_le q
  have h2 : q < ⌊q⌋ + 1 := Int.lt_floor_add_one q
  unfold roundHalfEven
  split_ifs with hlt hgt hev <;> push_cast <;> linarith

/-- Rounding half-to-even never moves a value down by more than 1/2. -/
theorem le_roundHalfEven (q : ℚ) : q - 1 / 2 ≤ (roundHalfEven q : ℚ) := by
  have h1 : (⌊q⌋ : ℚ) ≤ q := Int.floor_le q
  have h2 : q < ⌊q⌋ + 1 := Int.lt_floor_add_one q
  unfold roundHalfEven
  split_ifs with hlt hgt hev <;> push_cast <;> linarith

/-- `round(x, 1)` stays within 1/20 of its argument. -/
theorem round1_within (q : ℚ) : q - 1 / 20 ≤ round1 q ∧ round1 q ≤ q + 1 / 20 := by
  have h1 := roundHalfEven_le (10 * q)
  have h2 := le_roundHalfEven (10 * q)
  unfold round1
  constructor <;> linarith

/-- `round(x, 1)` is an integer multiple of 1/10. -/
theorem round1_is_tenth (q : ℚ) : ∃ n : ℤ, round1 q = (n : ℚ) / 10 :=
  ⟨roundHalfEven (10 * q), rfl⟩

/-- C4 (amended): for a numeric range with at least one non-int bound and
`lo ≤ hi`, sample returns a float rounded to exactly one decimal place
that lies within the interval widened by the rounding tolerance,
`[lo - 1/20, hi + 1/20]` (rounding may move the value up to half a tenth
outside `[lo, hi]` itself). -/
theorem c4_real_range_rounded_tolerance (a b : PyVal) (s : ℕ)
    (hna : a.isNumber = true) (hnb : b.isNumber = true)
    (hni : (a.isIntVal && b.isIntVal) = false)
    (hle : a.toRatNum ≤ b.toRatNum) :
    ∃ q : ℚ,
      (sampleFrom (some [a, b]) s).1 = Except.ok (some (PyVal.float q)) ∧
      (∃ n : ℤ, q = (n : ℚ) / 10) ∧
      a.toRatNum - 1 / 20 ≤ q ∧ q ≤ b.toRatNum + 1 / 20 := by
  have hrange : isNumericRange (some [a, b]) = true := by
    simp [isNumericRange, hna, hnb]
  have hq : (sampleFrom (some [a, b]) s).1 =
      Except.ok (some (PyVal.float (round1 ((uniform a.toRatNum b.toRatNum s).1)))) := by
    simp [sampleFrom, hrange, sampleRange, hni]
  have hu0 : 0 ≤ (randomUnit s).1 := by
    unfold randomUnit
    positivity
  have hu1 : (randomUnit s).1 < 1 := by
    unfold randomUnit
    rw [div_lt_one (by positivity)]
    exact_mod_cast Nat.mod_lt s (pow_pos (by norm_num) 53)
  have hx : (uniform a.toRatNum b.toRatNum s).1 =
      a.toRatNum + (b.toRatNum - a.toRatNum) * (randomUnit s).1 := rfl
  have hxlo : a.toRatNum ≤ (uniform a.toRatNum b.toRatNum s).1 := by
    rw [hx]
    nlinarith
  have hxhi : (uniform a.toRatNum b.toRatNum s).1 ≤ b.toRatNum := by
    rw [hx]
    nlinarith
  obtain ⟨hr1, hr2⟩ := round1_within ((uniform a.toRatNum b.toRatNum s).1)
  exact ⟨round1 ((uniform a.toRatNum b.toRatNum s).1), hq, round1_is_tenth _,
    by linarith, by linarith⟩

/-- Witness for C4 (amended) at the degenerate real range
`[1/2, 1/2]` and state 0. -/
theorem c4_real_range_rounded_tolerance_witness :
    ∃ q : ℚ,
      (sampleFrom (some [PyVal.float (1 / 2), PyVal.float (1 / 2)]) 0).1 =
          Except.ok (some (PyVal.float q)) ∧
      (∃ n : ℤ, q = (n : ℚ) / 10) ∧
      PyVal.toRatNum (PyVal.float (1 / 2)) - 1 / 20 ≤ q ∧
      q ≤ PyVal.toRatNum (PyVal.float (1 / 2)) + 1 / 20 :=
  c4_real_range_rounded_tolerance (PyVal.float (1 / 2)) (PyVal.float (1 / 2)) 0
    rfl rfl rfl le_rfl

/-- Counterexample to C4 as stated: on the real range `[0.16, 0.16]`
the sampled value is `round(0.16, 1) = 0.2`, which lies outside the
closed interval `[0.16, 0.16]`. -/
theorem c4_counterexample :
    (sampleFrom (some [PyVal.float (16 / 100), PyVal.float (16 / 100)]) 0).1 =
        Except.ok (some (PyVal.float (1 / 5))) ∧
    ¬ ((1 : ℚ) / 5 ≤ 16 / 100) := by
  constructor
  · norm_num [sampleFrom, isNumericRange, sampleRange, uniform, randomUnit, round1,
      roundHalfEven, PyVal.isNumber, PyVal.isIntVal, PyVal.toRatNum]
  · norm_num

end AIMarketResearch

/-! ## Claim theorems: sampling totality (C7) and the orchestrator (C8, C9) -/

namespace AIMarketResearch

/-- C7 (amended): sample never raises on an absent spec, on any discrete
set (including the empty set, which degrades to the absent value), on a
real range, or on an integer range with `lo ≤ hi`; the one exception,
forced by the counterexample, is an integer range with `lo > hi`, where
`rng.randint` raises `ValueError`. -/
theorem c7_sample_no_raise (spec : RangeOrOptions) (s : ℕ)
    (h : ∀ a b : ℤ, spec = some [PyVal.int a, PyVal.int b] → a ≤ b) :
    ∃ r : Option PyVal, (sampleFrom spec s).1 = Except.ok r := by
  match spec with
  | none => exact ⟨none, rfl⟩
  | some [] => exact ⟨none, rfl⟩
  | some [a] =>
      exact ⟨some a, by simp [sampleFrom, isNumericRange, choiceList, Nat.mod_one]⟩
  | some (a :: b :: c :: rest) =>
      refine ⟨some ((a :: b :: c :: rest).get
        ⟨s % (rest.length + 3), Nat.mod_lt s (Nat.succ_pos _)⟩), ?_⟩
      have hnr : isNumericRange (some (a :: b :: c :: rest)) = false := by
        simp [isNumericRange]
      simp [sampleFrom, hnr, choiceList]
  | some [a, b] =>
      by_cases hnr : isNumericRange (some [a, b]) = true
      · cases a with
        | int n =>
            cases b with
            | int m =>
                have hle : n ≤ m := h n m rfl
                refine ⟨some (PyVal.int (n + ((s % (m - n + 1).toNat : ℕ) : ℤ))), ?_⟩
                simp [sampleFrom, hnr, sampleRange, PyVal.isIntVal, PyVal.toIntVal,
                  randint, hle]
            | float qb =>
                refine ⟨some (PyVal.float (round1
                  ((uniform (PyVal.int n).toRatNum (PyVal.float qb).toRatNum s).1))), ?_⟩
                simp [sampleFrom, hnr, sampleRange, PyVal.isIntVal]
            | str t => simp [isNumericRange, PyVal.isNumber] at hnr
            | plist l => simp [isNumericRange, PyVal.isNumber] at hnr
        | float qa =>
            refine ⟨some (PyVal.float (round1
              ((uniform (PyVal.float qa).toRatNum b.toRatNum s).1))), ?_⟩
            simp [sampleFrom, hnr, sampleRange, PyVal.isIntVal]
        | str t => simp [isNumericRange, PyVal.isNumber] at hnr
        | plist l => simp [isNumericRange, PyVal.isNumber] at hnr
      · have hnr2 : isNumericRange (some [a, b]) = false :=
          Bool.not_eq_true _ ▸ Bool.of_not_eq_true hnr
        refine ⟨some ((a :: [b]).get ⟨s % 2, Nat.mod_lt s (by norm_num)⟩), ?_⟩
        simp [sampleFrom, hnr2, choiceList]

/-- Witness for C7 (amended) on a concrete singleton discrete set. -/
theorem c7_sample_no_raise_witness :
    ∃ r : Option PyVal, (sampleFrom (some [PyVal.str "x"]) 7).1 = Except.ok r :=
  c7_sample_no_raise (some [PyVal.str "x"]) 7 (by intro a b hab; simp at hab)

/-- Counterexample to C7 as stated: the integer range `[5, 3]` is an
AttributeSpec on which sample raises `ValueError` (from `rng.randint`),
and the exception propagates out of `generate_biography` to its caller. -/
theorem c7_counterexample :
    (sampleFrom (some [PyVal.int 5, PyVal.int 3]) 0).1 =
        Except.error "ValueError: empty range for randrange()" ∧
    generateBiography
        { demographic := { age := some [PyVal.int 5, PyVal.int 3] } } 42 =
      Except.error "ValueError: empty range for randrange()" :=
  ⟨rfl, rfl⟩

/-- C8: the respondent loop of `predict` appends exactly one Interview
Record regardless of the requested sample size: the persisted result for
the default `sample_size = 500` contains 1 record, not 500 (the
`range(sample_size)` loop survives only as a commented-out line while
the live code iterates `range(1)`). -/
theorem c8_predict_appends_one_record (concept questionnaire : String)
    (bioOf : ℕ → String) (answersOf : ℕ → List String) :
    (predictResult concept questionnaire 500 bioOf answersOf).responses.length = 1 ∧
    (predictResult concept questionnaire 500 bioOf answersOf).responses.length ≠ 500 := by
  constructor <;> simp [predictResult, predictLoop]

/-- C9 (amended): both format-contract checks behave the same way.  When
the questionnaire split yields exactly one segment, and when the answer
split yields exactly one segment or a segment count different from the
question count, the code detects the violation, prints a diagnostic and
hits an interactive debugger break — but then proceeds with the
mis-split segments unchanged (the question list flows into the persisted
result, the answer list is returned to the caller); no catchable error
value is raised by either branch. -/
theorem c9_format_violation_debugger_break (questionnaire serviceReply : String) :
    ((splitSegments questionnaire).length = 1 →
      ∃ qout : QBuildOut,
        buildQuestionnaire questionnaire = Except.ok qout ∧
        qout.questions = splitSegments questionnaire ∧
        qout.debuggerBreaks = 1 ∧ qout.printed ≠ [] ∧
        ∀ (concept : String) (n : ℕ) (bioOf : ℕ → String)
          (answersOf : ℕ → List String),
          (predictResult concept questionnaire n bioOf answersOf).questions =
            qout.questions) ∧
    (((splitSegments serviceReply).length = 1 ∨
        (splitSegments serviceReply).length ≠ (splitSegments questionnaire).length) →
      ∃ out : PQOut,
        performQuestionnaire questionnaire serviceReply = Except.ok out ∧
        out.answers = splitSegments serviceReply ∧
        out.debuggerBreaks = 1 ∧ out.printed ≠ []) := by
  constructor
  · intro h1
    exact ⟨_, by rw [buildQuestionnaire, if_pos h1], rfl, rfl, by simp,
      fun concept n bioOf answersOf => rfl⟩
  · intro h
    by_cases h1 : (splitSegments serviceReply).length = 1
    · exact ⟨_, by rw [performQuestionnaire, if_pos h1], rfl, rfl, by simp⟩
    · have h2 : (splitSegments serviceReply).length ≠
          (splitSegments questionnaire).length := h.resolve_left h1
      exact ⟨_, by rw [performQuestionnaire, if_neg h1, if_pos h2], rfl, rfl, by simp⟩

/-- Witness for C9 (amended): a drafted questionnaire with no delimiter
(one segment) triggers the questionnaire-side diagnostic-and-break path,
and an answer reply with no delimiter triggers the answer-side one. -/
theorem c9_format_violation_debugger_break_witness :
    (∃ qout : QBuildOut,
        buildQuestionnaire "Q1" = Except.ok qout ∧
        qout.questions = splitSegments "Q1" ∧
        qout.debuggerBreaks = 1 ∧ qout.printed ≠ [] ∧
        ∀ (concept : String) (n : ℕ) (bioOf : ℕ → String)
          (answersOf : ℕ → List String),
          (predictResult concept "Q1" n bioOf answersOf).questions =
            qout.questions) ∧
    (∃ out : PQOut,
        performQuestionnaire "Q1" "A1" = Except.ok out ∧
        out.answers = splitSegments "A1" ∧
        out.debuggerBreaks = 1 ∧ out.printed ≠ []) :=
  ⟨(c9_format_violation_debugger_break "Q1" "A1").1 (by decide),
   (c9_format_violation_debugger_break "Q1" "A1").2 (Or.inl (by decide))⟩

/-- Counterexample to C9 as stated, at both checks.  With 2 questions and
a reply that splits into 3 answer segments, `perform_questionnaire`
returns `Except.ok` carrying the mis-split segments (after a debugger
break) and never an `Except.error`; and a questionnaire reply with no
delimiter makes the questionnaire-building step of `predict` proceed the
same way, `Except.ok` with the single segment and never an error.
Neither violation is surfaced to the caller as a recoverable, catchable
error. -/
theorem c9_counterexample :
    performQuestionnaire "Q1\n\nQ2" "A1\n\nA2\n\nA3" =
        Except.ok
          { answers := ["A1", "A2", "A3"],
            printed :=
              ["Different number of questions and answers: 3 answers and 2 questions"],
            debuggerBreaks := 1 } ∧
    (∀ e : String,
      performQuestionnaire "Q1\n\nQ2" "A1\n\nA2\n\nA3" ≠ Except.error e) ∧
    buildQuestionnaire "Q1" =
        Except.ok
          { questions := ["Q1"],
            printed := ["Questions incorrectly separated, check separation token"],
            debuggerBreaks := 1 } ∧
    ∀ e : String, buildQuestionnaire "Q1" ≠ Except.error e := by
  have hok : performQuestionnaire "Q1\n\nQ2" "A1\n\nA2\n\nA3" =
      Except.ok
        { answers := ["A1", "A2", "A3"],
          printed :=
            ["Different number of questions and answers: 3 answers and 2 questions"],
          debuggerBreaks := 1 } := rfl
  have hq : buildQuestionnaire "Q1" =
      Except.ok
        { questions := ["Q1"],
          printed := ["Questions incorrectly separated, check separation token"],
          debuggerBreaks := 1 } := rfl
  refine ⟨hok, fun e he => ?_, hq, fun e he => ?_⟩
  · rw [hok] at he
    exact Except.noConfusion he
  · rw [hq] at he
    exact Except.noConfusion he

end AIMarketResearch
